import Mathlib

/-!
Shallow embedding of the MusicToolkit MCP server (repository Nsuccess/Musixtral).

The repository contains two sibling implementations of the JSON-RPC (MCP)
dispatcher `handle_mcp_request`:
  * `src/MusicToolkit/api/index.py`  (namespace `IndexApi` below)
  * `src/MusicToolkit/api/mcp.py`    (namespace `McpApi` below)
Python values flowing through the dispatcher are modelled by the `Json`
inductive type; Python dicts by association lists (first-match lookup, which
coincides with Python dict semantics since parsed JSON objects have unique
keys); Python exceptions by `Except String`; the external world (clock,
filesystem, the two remote HTTP APIs) by explicit environment records.
-/

/-- A Python/JSON value.  `null` doubles as Python `None`. -/
inductive Json where
  | null : Json
  | bool : Bool → Json
  | int : Int → Json
  | str : String → Json
  | arr : List Json → Json
  | obj : List (String × Json) → Json
deriving Repr

/-- A parsed JSON object / Python dict, as an association list. -/
abbrev PyDict := List (String × Json)

/-- `d.get(k)` on a Python dict: first entry with key `k`, if any. -/
def dictGet (d : PyDict) (k : String) : Option Json :=
  (d.find? (fun kv => kv.fst = k)).map (fun kv => kv.snd)

/-- `d.get(k, default)` on a Python dict. -/
def dictGetD (d : PyDict) (k : String) (dflt : Json) : Json :=
  (dictGet d k).getD dflt

/-- `d[k] = v` on a Python dict: overwrite in place if the key exists
(keeping its position), otherwise append at the end (insertion order). -/
def dictSet (d : PyDict) (k : String) (v : Json) : PyDict :=
  if d.any (fun kv => kv.fst = k) then
    d.map (fun kv => if kv.fst = k then (k, v) else kv)
  else
    d ++ [(k, v)]

/-- `d[k] += s` on a string-valued entry of a Python dict.  In every flow of
the source the entry exists and holds a string; other shapes are unreachable
and left unchanged. -/
def dictStrAppend (d : PyDict) (k : String) (s : String) : PyDict :=
  match dictGet d k with
  | some (Json.str t) => dictSet d k (Json.str (t ++ s))
  | _ => d

/-- Python truthiness (`if x:`) of a JSON value. -/
def pyTruthy : Json → Bool
  | Json.null => false
  | Json.bool b => b
  | Json.int n => n != 0
  | Json.str s => s ≠ ""
  | Json.arr xs => ¬ xs.isEmpty
  | Json.obj kvs => ¬ kvs.isEmpty

mutual
/-- Python `repr` of a value, as used by `str` on containers.  Exact on
`None`, booleans, integers and plain strings (strings without quote or escape
characters); approximate otherwise. -/
def pyRepr : Json → String
  | Json.null => "None"
  | Json.bool true => "True"
  | Json.bool false => "False"
  | Json.int n => toString n
  | Json.str s => "\x27" ++ s ++ "\x27"
  | Json.arr xs => "[" ++ pyReprList xs ++ "]"
  | Json.obj kvs => "\x7b" ++ pyReprObj kvs ++ "\x7d"

def pyReprList : List Json → String
  | [] => ""
  | [x] => pyRepr x
  | x :: xs => pyRepr x ++ ", " ++ pyReprList xs

def pyReprObj : List (String × Json) → String
  | [] => ""
  | [(k, v)] => "\x27" ++ k ++ "\x27: " ++ pyRepr v
  | (k, v) :: kvs => "\x27" ++ k ++ "\x27: " ++ pyRepr v ++ ", " ++ pyReprObj kvs
end

/-- Python `str` of a value (as in an f-string): like `repr` but a top-level
string is rendered bare. -/
def pyStr : Json → String
  | Json.str s => s
  | v => pyRepr v

mutual
/-- Structural equality of JSON values, matching Python `==` on the
comparisons the source performs (always against a string literal). -/
def jsonBeq : Json → Json → Bool
  | Json.null, Json.null => true
  | Json.bool a, Json.bool b => a == b
  | Json.int a, Json.int b => a == b
  | Json.str a, Json.str b => a == b
  | Json.arr xs, Json.arr ys => jsonListBeq xs ys
  | Json.obj xs, Json.obj ys => jsonObjBeq xs ys
  | _, _ => false

def jsonListBeq : List Json → List Json → Bool
  | [], [] => true
  | x :: xs, y :: ys => jsonBeq x y && jsonListBeq xs ys
  | _, _ => false

def jsonObjBeq : List (String × Json) → List (String × Json) → Bool
  | [], [] => true
  | (k, v) :: xs, (l, w) :: ys => k == l && jsonBeq v w && jsonObjBeq xs ys
  | _, _ => false
end

/-- Lowercase hex digit. -/
def hexDigit (n : Nat) : Char :=
  if n < 10 then Char.ofNat (48 + n) else Char.ofNat (87 + n)

/-- Four lowercase hex digits, as in a JSON `\uXXXX` escape. -/
def hex4 (n : Nat) : String :=
  String.mk [hexDigit (n / 4096 % 16), hexDigit (n / 256 % 16),
             hexDigit (n / 16 % 16), hexDigit (n % 16)]

/-- How CPython `json.dumps` (default `ensure_ascii=True`) renders one
character inside a string literal: everything outside printable ASCII is
`\uXXXX`-escaped (surrogate pairs above the BMP). -/
def jsonEscapeChar (c : Char) : String :=
  if c = '"' then "\\\""
  else if c = '\\' then "\\\\"
  else if c = '\n' then "\\n"
  else if c = '\t' then "\\t"
  else if c = '\r' then "\\r"
  else if c.toNat = 8 then "\\b"
  else if c.toNat = 12 then "\\f"
  else if 32 ≤ c.toNat ∧ c.toNat ≤ 126 then String.mk [c]
  else if c.toNat < 65536 then "\\u" ++ hex4 c.toNat
  else
    "\\u" ++ hex4 (55296 + (c.toNat - 65536) / 1024)
      ++ "\\u" ++ hex4 (56320 + (c.toNat - 65536) % 1024)

/-- A JSON string literal as `json.dumps` writes it. -/
def jsonQuote (s : String) : String :=
  "\"" ++ String.join (s.data.map jsonEscapeChar) ++ "\""

/-- `n` spaces. -/
def indentSp (n : Nat) : String := String.mk (List.replicate n ' ')

mutual
/-- `json.dumps(v, indent=2)` at current indentation `ind`, as used by the
`index.py` dispatcher to render a tool result into the text content block. -/
def dumpsInd (ind : Nat) : Json → String
  | Json.null => "null"
  | Json.bool true => "true"
  | Json.bool false => "false"
  | Json.int n => toString n
  | Json.str s => jsonQuote s
  | Json.arr [] => "[]"
  | Json.arr (x :: xs) =>
      "[\n" ++ dumpsIndList (ind + 2) (x :: xs) ++ "\n" ++ indentSp ind ++ "]"
  | Json.obj [] => "\x7b\x7d"
  | Json.obj (kv :: kvs) =>
      "\x7b\n" ++ dumpsIndObj (ind + 2) (kv :: kvs) ++ "\n" ++ indentSp ind ++ "\x7d"

def dumpsIndList (ind : Nat) : List Json → String
  | [] => ""
  | [x] => indentSp ind ++ dumpsInd ind x
  | x :: xs => indentSp ind ++ dumpsInd ind x ++ ",\n" ++ dumpsIndList ind xs

def dumpsIndObj (ind : Nat) : List (String × Json) → String
  | [] => ""
  | [(k, v)] => indentSp ind ++ jsonQuote k ++ ": " ++ dumpsInd ind v
  | (k, v) :: kvs =>
      indentSp ind ++ jsonQuote k ++ ": " ++ dumpsInd ind v ++ ",\n" ++ dumpsIndObj ind kvs
end

/-- `json.dumps(v, indent=2)` on a Python dict. -/
def dumpsDict2 (d : PyDict) : String := dumpsInd 0 (Json.obj d)

/-- The base64 alphabet. -/
def b64Alphabet : List Char :=
  "ABCDEFGHIJKLMNOPQRSTUVWXYZabcdefghijklmnopqrstuvwxyz0123456789+/".data

def b64Char (n : Nat) : Char := b64Alphabet.getD n 'A'

/-- Standard base64 of a byte sequence, as `base64.b64encode`. -/
def base64EncodeBytes : List Nat → String
  | [] => ""
  | [a] =>
      String.mk [b64Char (a / 4), b64Char (a % 4 * 16)] ++ "=="
  | [a, b] =>
      String.mk [b64Char (a / 4), b64Char (a % 4 * 16 + b / 16), b64Char (b % 16 * 4)] ++ "="
  | a :: b :: c :: rest =>
      String.mk [b64Char (a / 4), b64Char (a % 4 * 16 + b / 16),
                 b64Char (b % 16 * 4 + c / 64), b64Char (c % 64)]
        ++ base64EncodeBytes rest

/-- `base64.b64encode(s.encode("utf-8")).decode("utf-8")`. -/
def base64OfString (s : String) : String :=
  base64EncodeBytes (s.toUTF8.toList.map UInt8.toNat)

/-- A JSON-RPC error object: `{"code": ..., "message": ...}`. -/
structure RpcError where
  code : Int
  message : String
deriving Repr

/-- A JSON-RPC response dict as both dispatchers construct it: always the
keys `jsonrpc` and `id`, plus exactly one of `result` / `error` (every
return site of the source sets one of the two; the structure records which). -/
structure Response where
  jsonrpc : String
  id : Json
  result : Option Json
  error : Option RpcError
deriving Repr

/-- The error code carried by a response, if it is an error response. -/
def errCode (r : Response) : Option Int := r.error.map RpcError.code

/-- The text of the single text content block of a tool-call result
envelope, when the response has that shape. -/
def respText (r : Response) : Option String :=
  match r.result with
  | some (Json.obj kvs) =>
      match dictGet kvs "content" with
      | some (Json.arr (Json.obj c :: _)) =>
          match dictGet c "text" with
          | some (Json.str t) => some t
          | _ => none
      | _ => none
  | _ => none

/-- Outcome of one `requests.post` call, chosen by the environment:
either the call raises (network failure), or it returns a response with a
status code, a text body, and a `.json()` parse outcome (`.json()` raises
when the body is not JSON). -/
inductive HttpOutcome where
  | raises : String → HttpOutcome
  | resp : Int → String → Except String Json → HttpOutcome

/-- Python name of a value's type, as it appears in error messages. -/
def pyTypeName : Json → String
  | Json.null => "NoneType"
  | Json.bool _ => "bool"
  | Json.int _ => "int"
  | Json.str _ => "str"
  | Json.arr _ => "list"
  | Json.obj _ => "dict"

/-- `v.get(k, dflt)` on an arbitrary value: succeeds on a dict, raises
`AttributeError` (as an `Except` error) on anything else. -/
def pyGetAttrD (v : Json) (k : String) (dflt : Json) : Except String Json :=
  match v with
  | Json.obj kvs => Except.ok (dictGetD kvs k dflt)
  | other =>
      Except.error ("\x27" ++ pyTypeName other
        ++ "\x27 object has no attribute \x27get\x27")

/-- CPython keyword-argument binding for a call `f(**arguments)` where every
parameter of `f` is named in `allowed` and the parameters in `required` have
no default.  Returns the argument dict on success and the `TypeError`
message the interpreter would raise otherwise. -/
def checkKwargs (fname : String) (allowed required : List String) (arguments : Json) :
    Except String PyDict :=
  match arguments with
  | Json.obj kvs =>
      match kvs.find? (fun kv => ¬ allowed.contains kv.fst) with
      | some kv =>
          Except.error (fname ++ "() got an unexpected keyword argument \x27"
            ++ kv.fst ++ "\x27")
      | none =>
          match required.find? (fun r => ¬ kvs.any (fun kv => kv.fst = r)) with
          | some r =>
              Except.error (fname ++ "() missing 1 required positional argument: \x27"
                ++ r ++ "\x27")
          | none => Except.ok kvs
  | other =>
      Except.error (fname ++ "() argument after ** must be a mapping, not "
        ++ pyTypeName other)

namespace IndexApi

/-- External world of `api/index.py`: the two wall-clock reads of
`datetime.now()` (one timestamp-shaped, one date-shaped; the source may call
them several times per request — the model assumes the readings agree within
a request) and the outcome of a `requests.post` to each remote API, as a
function of the JSON payload sent. -/
structure Env where
  nowTimestamp : String
  nowDate : String
  verovio : Json → HttpOutcome
  musicgen : Json → HttpOutcome

/-- The fixed placeholder MusicXML body (part list and the four-note
measure), common suffix of every generated document in `index.py`. -/
def placeholderTail : String :=
  "  <part-list>\n    <score-part id=\"P1\">\n      <part-name>Generated Part</part-name>\n    </score-part>\n  </part-list>\n  <part id=\"P1\">\n    <measure number=\"1\">\n      <attributes>\n        <divisions>4</divisions>\n        <key>\n          <fifths>0</fifths>\n        </key>\n        <time>\n          <beats>4</beats>\n          <beat-type>4</beat-type>\n        </time>\n        <clef>\n          <sign>G</sign>\n          <line>2</line>\n        </clef>\n      </attributes>\n      <note>\n        <pitch>\n          <step>C</step>\n          <octave>4</octave>\n        </pitch>\n        <duration>4</duration>\n        <type>quarter</type>\n      </note>\n      <note>\n        <pitch>\n          <step>D</step>\n          <octave>4</octave>\n        </pitch>\n        <duration>4</duration>\n        <type>quarter</type>\n      </note>\n      <note>\n        <pitch>\n          <step>E</step>\n          <octave>4</octave>\n        </pitch>\n        <duration>4</duration>\n        <type>quarter</type>\n      </note>\n      <note>\n        <pitch>\n          <step>F</step>\n          <octave>4</octave>\n        </pitch>\n        <duration>4</duration>\n        <type>quarter</type>\n      </note>\n    </measure>\n  </part>\n</score-partwise>"

/-- `index.py` `create_placeholder_musicxml`: the f-string template.  The
`timestamp` parameter is defaulted from the clock but never interpolated
into the template (dead in the source), so the result depends only on the
title and the date. -/
def create_placeholder_musicxml (title : String) (timestamp : Json) (env : Env) : String :=
  let _timestamp : String :=
    match timestamp with
    | Json.null => env.nowTimestamp
    | t => pyStr t
  "<?xml version=\"1.0\" encoding=\"UTF-8\"?>\n<score-partwise version=\"3.1\">\n  <work>\n    <work-title>"
    ++ title
    ++ "</work-title>\n  </work>\n  <identification>\n    <creator type=\"composer\">MusicToolkit AI</creator>\n    <encoding>\n      <software>MusicToolkit MCP Server</software>\n      <encoding-date>"
    ++ env.nowDate
    ++ "</encoding-date>\n    </encoding>\n  </identification>\n"
    ++ placeholderTail

/-- `index.py` `wav_to_music_score`.  The outer `try` of the source never
fires because the body (placeholder construction plus a fully-caught inner
HTTP call) raises nothing, so the `success: False` fallback dict is
unreachable and the model is total.  Note that `wav_path` is never used. -/
def wav_to_music_score (wav_path render_svg timestamp : Json) (env : Env) : PyDict :=
  let _wav_path := wav_path
  let musicxml_content := create_placeholder_musicxml "Audio Conversion" timestamp env
  let result : PyDict :=
    [("success", Json.bool true),
     ("musicxml", Json.str musicxml_content),
     ("message", Json.str "Placeholder MusicXML generated (basic-pitch not available in deployment)")]
  if pyTruthy render_svg then
    match env.verovio (Json.obj [("musicxml", Json.str musicxml_content)]) with
    | HttpOutcome.raises e =>
        dictStrAppend (dictSet result "svg" (Json.str ""))
          "message" (" (SVG error: " ++ e ++ ")")
    | HttpOutcome.resp status _text jsonBody =>
        if status = 200 then
          match (do
              let svg_data ← jsonBody
              pyGetAttrD svg_data "svg" (Json.str "")) with
          | Except.ok v =>
              dictStrAppend (dictSet result "svg" v) "message" " with SVG rendering"
          | Except.error e =>
              dictStrAppend (dictSet result "svg" (Json.str ""))
                "message" (" (SVG error: " ++ e ++ ")")
        else
          dictStrAppend (dictSet result "svg" (Json.str ""))
            "message" " (SVG rendering failed)"
  else result

/-- `index.py` `generate_music_from_humming`.  Every failure of the
MusicGen call (network exception, non-200 status — re-raised by the source
and immediately caught — bad JSON body, body without a dict shape) lands in
the inner `except`, which builds the placeholder dict with `success: True`.
As in `wav_to_music_score`, the outer `except` is unreachable. -/
def generate_music_from_humming (humming_path generate_score timestamp : Json) (env : Env) :
    PyDict :=
  let result : PyDict :=
    match env.musicgen (Json.obj [("audio_path", humming_path), ("duration", Json.int 30)]) with
    | HttpOutcome.raises e =>
        [("success", Json.bool true),
         ("generated_audio", Json.str ""),
         ("message", Json.str ("Placeholder response (MusicGen API unavailable: " ++ e ++ ")"))]
    | HttpOutcome.resp status _text jsonBody =>
        if status = 200 then
          match (do
              let generation_data ← jsonBody
              pyGetAttrD generation_data "audio_url" (Json.str "")) with
          | Except.ok v =>
              [("success", Json.bool true),
               ("generated_audio", v),
               ("message", Json.str "Music generated successfully using MusicGen")]
          | Except.error e =>
              [("success", Json.bool true),
               ("generated_audio", Json.str ""),
               ("message", Json.str ("Placeholder response (MusicGen API unavailable: " ++ e ++ ")"))]
        else
          [("success", Json.bool true),
           ("generated_audio", Json.str ""),
           ("message", Json.str ("Placeholder response (MusicGen API unavailable: MusicGen API error: "
             ++ toString status ++ ")"))]
  if pyTruthy generate_score then
    dictStrAppend
      (dictSet result "musicxml"
        (Json.str (create_placeholder_musicxml "Generated from Humming" timestamp env)))
      "message" " with MusicXML score"
  else result

/-- The static `initialize` result of `index.py`. -/
def initializeResult : Json :=
  Json.obj
    [("protocolVersion", Json.str "2024-11-05"),
     ("capabilities", Json.obj
        [("tools", Json.obj []), ("resources", Json.obj []), ("prompts", Json.obj [])]),
     ("serverInfo", Json.obj
        [("name", Json.str "MusicToolkit MCP Server"), ("version", Json.str "1.14.0")])]

/-- The static `tools/list` result of `index.py`: two descriptors; the WAV
tool requires only `wav_path`, the humming tool requires only
`humming_path` (there is no `style_prompt` property at all). -/
def toolsListResult : Json :=
  Json.obj [("tools", Json.arr
    [Json.obj
      [("name", Json.str "wav_to_music_score"),
       ("description", Json.str "Convert WAV audio files to MusicXML scores with optional SVG rendering"),
       ("inputSchema", Json.obj
         [("type", Json.str "object"),
          ("properties", Json.obj
            [("wav_path", Json.obj
               [("type", Json.str "string"),
                ("description", Json.str "Path to WAV audio file")]),
             ("render_svg", Json.obj
               [("type", Json.str "boolean"),
                ("description", Json.str "Whether to render SVG"),
                ("default", Json.bool true)]),
             ("timestamp", Json.obj
               [("type", Json.str "string"),
                ("description", Json.str "Optional timestamp for file naming")])]),
          ("required", Json.arr [Json.str "wav_path"])])],
     Json.obj
      [("name", Json.str "generate_music_from_humming"),
       ("description", Json.str "Generate full music from humming audio using AI"),
       ("inputSchema", Json.obj
         [("type", Json.str "object"),
          ("properties", Json.obj
            [("humming_path", Json.obj
               [("type", Json.str "string"),
                ("description", Json.str "Path to humming audio file")]),
             ("generate_score", Json.obj
               [("type", Json.str "boolean"),
                ("description", Json.str "Whether to generate music score"),
                ("default", Json.bool true)]),
             ("timestamp", Json.obj
               [("type", Json.str "string"),
                ("description", Json.str "Optional timestamp for file naming")])]),
          ("required", Json.arr [Json.str "humming_path"])])]])]

/-- A result envelope wrapping `r`. -/
def okResp (request_id : Json) (r : Json) : Response :=
  { jsonrpc := "2.0", id := request_id, result := some r, error := none }

/-- An error envelope. -/
def errResp (request_id : Json) (code : Int) (message : String) : Response :=
  { jsonrpc := "2.0", id := request_id, result := none,
    error := some { code := code, message := message } }

/-- The tool lookup of the `tools/call` branch of `index.py`: bind the
keyword arguments and run the matching tool, or RAISE
(`raise Exception(f"Unknown tool: ...")`) — the unknown-tool case is an
exception, not a -32601 error response. -/
def callTool (tool_name arguments : Json) (env : Env) : Except String PyDict :=
  if jsonBeq tool_name (Json.str "wav_to_music_score") then
    match checkKwargs "wav_to_music_score"
        ["wav_path", "render_svg", "timestamp"] ["wav_path"] arguments with
    | Except.error e => Except.error e
    | Except.ok kvs =>
        Except.ok (wav_to_music_score
          (dictGetD kvs "wav_path" Json.null)
          (dictGetD kvs "render_svg" (Json.bool true))
          (dictGetD kvs "timestamp" Json.null) env)
  else if jsonBeq tool_name (Json.str "generate_music_from_humming") then
    match checkKwargs "generate_music_from_humming"
        ["humming_path", "generate_score", "timestamp"] ["humming_path"] arguments with
    | Except.error e => Except.error e
    | Except.ok kvs =>
        Except.ok (generate_music_from_humming
          (dictGetD kvs "humming_path" Json.null)
          (dictGetD kvs "generate_score" (Json.bool true))
          (dictGetD kvs "timestamp" Json.null) env)
  else
    Except.error ("Unknown tool: " ++ pyStr tool_name)

/-- The `try` body of `index.py` `handle_mcp_request`: dispatch on the
method name; `Except.error` is a Python exception escaping to the
surrounding `except` clause. -/
def handleTry (method params request_id : Json) (env : Env) : Except String Response :=
  if jsonBeq method (Json.str "initialize") then
    Except.ok (okResp request_id initializeResult)
  else if jsonBeq method (Json.str "tools/list") then
    Except.ok (okResp request_id toolsListResult)
  else if jsonBeq method (Json.str "tools/call") then
    match pyGetAttrD params "name" Json.null with
    | Except.error e => Except.error e
    | Except.ok tool_name =>
      match pyGetAttrD params "arguments" (Json.obj []) with
      | Except.error e => Except.error e
      | Except.ok arguments =>
        match callTool tool_name arguments env with
        | Except.error e => Except.error e
        | Except.ok result =>
          Except.ok (okResp request_id (Json.obj
            [("content", Json.arr
              [Json.obj
                [("type", Json.str "text"),
                 ("text", Json.str (dumpsDict2 result))]])]))
  else if jsonBeq method (Json.str "resources/list") then
    Except.ok (okResp request_id (Json.obj [("resources", Json.arr [])]))
  else if jsonBeq method (Json.str "prompts/list") then
    Except.ok (okResp request_id (Json.obj [("prompts", Json.arr [])]))
  else
    Except.ok (errResp request_id (-32601) ("Method not found: " ++ pyStr method))

/-- `index.py` `handle_mcp_request`: pull `method` / `params` / `id` out of
the request dict (these three reads precede the `try`), run the dispatch,
and convert any escaping exception into a -32603 error envelope. -/
def handle_mcp_request (request_data : PyDict) (env : Env) : Response :=
  match handleTry (dictGetD request_data "method" Json.null)
      (dictGetD request_data "params" (Json.obj []))
      (dictGetD request_data "id" (Json.int 0)) env with
  | Except.ok r => r
  | Except.error e =>
      errResp (dictGetD request_data "id" (Json.int 0)) (-32603) ("Internal error: " ++ e)

end IndexApi

namespace McpApi

/-- External world of `api/mcp.py`: the clock, `os.path.exists`, `open(...)`
(`some msg` when opening raises, `none` when it succeeds), and the outcome
of the two `requests.post` calls — the Verovio upload is keyed by the path
of the MusicXML file sent, the MusicGen upload by the melody file and the
style prompt.  `os.path.exists` is modelled as total (in CPython it raises
on some non-path arguments; no claim exercises that corner) and file writes
are assumed to succeed. -/
structure Env where
  nowTimestamp : String
  pathExists : Json → Bool
  openFile : Json → Option String
  verovioUpload : String → HttpOutcome
  musicgenUpload : Json → Json → HttpOutcome

/-- Hardcoded API base URLs of `mcp.py`. -/
def VEROVIO_API_URL : String := "https://ykzou1214--verovio-api-fastapi-app.modal.run"

def MUSICGEN_API_URL : String := "https://ykzou1214--musicgen-melody-api-inference-api.modal.run"

/-- The fixed MusicXML document `mcp.py`'s `wav_to_musicxml` writes. -/
def mcpPlaceholderXml : String :=
  "<?xml version=\"1.0\" encoding=\"UTF-8\"?>\n<!DOCTYPE score-partwise PUBLIC \"-//Recordare//DTD MusicXML 3.1 Partwise//EN\" \"http://www.musicxml.org/dtds/partwise.dtd\">\n<score-partwise version=\"3.1\">\n  <part-list>\n    <score-part id=\"P1\">\n      <part-name>Generated from Audio</part-name>\n    </score-part>\n  </part-list>\n  <part id=\"P1\">\n    <measure number=\"1\">\n      <attributes>\n        <divisions>1</divisions>\n        <key>\n          <fifths>0</fifths>\n        </key>\n        <time>\n          <beats>4</beats>\n          <beat-type>4</beat-type>\n        </time>\n        <clef>\n          <sign>G</sign>\n          <line>2</line>\n        </clef>\n      </attributes>\n      <note>\n        <pitch>\n          <step>C</step>\n          <octave>4</octave>\n        </pitch>\n        <duration>1</duration>\n        <type>quarter</type>\n      </note>\n      <note>\n        <pitch>\n          <step>D</step>\n          <octave>4</octave>\n        </pitch>\n        <duration>1</duration>\n        <type>quarter</type>\n      </note>\n      <note>\n        <pitch>\n          <step>E</step>\n          <octave>4</octave>\n        </pitch>\n        <duration>1</duration>\n        <type>quarter</type>\n      </note>\n      <note>\n        <pitch>\n          <step>F</step>\n          <octave>4</octave>\n        </pitch>\n        <duration>1</duration>\n        <type>quarter</type>\n      </note>\n    </measure>\n  </part>\n</score-partwise>"

/-- `mcp.py` `wav_to_musicxml`: writes `mcpPlaceholderXml` under
`/tmp/output/generated_<timestamp>.musicxml` and returns that path.  The
`wav_path` parameter is unused in the source; the file write is assumed to
succeed (the model tracks no filesystem state). -/
def wav_to_musicxml (wav_path : Json) (timestamp : String) (env : Env) : String :=
  let _wav_path := wav_path
  let timestamp := if timestamp = "" then env.nowTimestamp else timestamp
  "/tmp/output/generated_" ++ timestamp ++ ".musicxml"

/-- `mcp.py` `render_musicxml_via_verovio_api`: POST the MusicXML file to
the Verovio API and wrap the returned SVG, base64-encoded, in an HTML
fragment; every failure is returned as a string with a ❌/⚠️ prefix.  The
message of the exception raised by `response.json()["svg"]` when the body
is not an object with a string `svg` field is approximated. -/
def render_musicxml_via_verovio_api (musicxml_path : String) (env : Env) : String :=
  if VEROVIO_API_URL = "" then "❌ VEROVIO_API_URL is not configured"
  else
    match env.openFile (Json.str musicxml_path) with
    | some e => "❌ Verovio API call failed: " ++ e
    | none =>
      match env.verovioUpload musicxml_path with
      | HttpOutcome.raises e => "❌ Verovio API call failed: " ++ e
      | HttpOutcome.resp status text jsonBody =>
        if status ≠ 200 then
          "❌ Verovio API error " ++ toString status ++ ": " ++ text
        else
          match jsonBody with
          | Except.error e => "⚠️ Failed to parse SVG: " ++ e
          | Except.ok j =>
            match j with
            | Json.obj kvs =>
              match dictGet kvs "svg" with
              | some (Json.str svg) =>
                  "\n        <div style=\"background-color: white; padding: 10px; border-radius: 8px;\">\n            <img src=\"data:image/svg+xml;base64,"
                    ++ base64OfString svg
                    ++ "\" style=\"width:100%; max-height:600px;\" />\n        </div>\n        "
              | some v => "⚠️ Failed to parse SVG: \x27" ++ pyTypeName v ++ "\x27 object has no attribute \x27encode\x27"
              | none => "⚠️ Failed to parse SVG: \x27svg\x27"
            | v => "⚠️ Failed to parse SVG: \x27" ++ pyTypeName v ++ "\x27 object is not subscriptable"

/-- `mcp.py` `generate_music_from_hum`: POST the melody file and the style
prompt to the MusicGen API; stream the body to a timestamp-named WAV file
on success; every failure is a ❌-prefixed string.  The file write is
assumed to succeed. -/
def generate_music_from_hum (melody_file prompt : Json) (env : Env) : String :=
  if MUSICGEN_API_URL = "" then "❌ MUSICGEN_API_URL is not configured."
  else
    let timestamp := env.nowTimestamp
    let wav_out_path := "/tmp/output/generated_" ++ timestamp ++ ".wav"
    match env.openFile melody_file with
    | some e => "❌ Music generation failed: " ++ e
    | none =>
      match env.musicgenUpload melody_file prompt with
      | HttpOutcome.raises e => "❌ Music generation failed: " ++ e
      | HttpOutcome.resp status text _ =>
        if status ≠ 200 then "❌ API error " ++ toString status ++ ": " ++ text
        else wav_out_path

/-- The pydantic request model `MCPRequest` of `mcp.py` after validation:
`jsonrpc` defaults to `"2.0"`, `id` (an int) and `method` (a string) are
required, `params` defaults to `{}`. -/
structure MCPRequest where
  jsonrpc : String
  id : Int
  method : String
  params : PyDict
deriving Repr

/-- `MCPRequest(**request_data)`: pydantic validation.  Extra keys are
ignored; a missing or wrongly-typed required field raises a
`ValidationError` (modelled as `Except.error`; the exact multi-line
pydantic message is approximated, and so are pydantic's lenient numeric
coercions — every claim below exercises only exactly-typed fields, on
which strict and lenient validation agree). -/
def parseMCPRequest (d : PyDict) : Except String MCPRequest :=
  match dictGet d "jsonrpc" with
  | some (Json.bool _) | some Json.null | some (Json.int _)
  | some (Json.arr _) | some (Json.obj _) =>
      Except.error "1 validation error for MCPRequest: jsonrpc str type expected"
  | none | some (Json.str _) =>
    let jsonrpc := match dictGet d "jsonrpc" with
      | some (Json.str s) => s
      | _ => "2.0"
    match dictGet d "id" with
    | none => Except.error "1 validation error for MCPRequest: id field required"
    | some (Json.bool _) | some Json.null | some (Json.str _)
    | some (Json.arr _) | some (Json.obj _) =>
        Except.error "1 validation error for MCPRequest: id value is not a valid integer"
    | some (Json.int n) =>
      match dictGet d "method" with
      | none => Except.error "1 validation error for MCPRequest: method field required"
      | some (Json.bool _) | some Json.null | some (Json.int _)
      | some (Json.arr _) | some (Json.obj _) =>
          Except.error "1 validation error for MCPRequest: method str type expected"
      | some (Json.str m) =>
        match dictGet d "params" with
        | some (Json.bool _) | some Json.null | some (Json.int _)
        | some (Json.arr _) | some (Json.str _) =>
            Except.error "1 validation error for MCPRequest: params value is not a valid dict"
        | none =>
            Except.ok { jsonrpc := jsonrpc, id := n, method := m, params := [] }
        | some (Json.obj kvs) =>
            Except.ok { jsonrpc := jsonrpc, id := n, method := m, params := kvs }

/-- A result envelope. -/
def okResp (request_id : Json) (r : Json) : Response :=
  { jsonrpc := "2.0", id := request_id, result := some r, error := none }

/-- An error envelope. -/
def errResp (request_id : Json) (code : Int) (message : String) : Response :=
  { jsonrpc := "2.0", id := request_id, result := none,
    error := some { code := code, message := message } }

/-- A tool-call result: one text content block. -/
def contentText (t : String) : Json :=
  Json.obj [("content", Json.arr
    [Json.obj [("type", Json.str "text"), ("text", Json.str t)]])]

/-- The static `initialize` result of `mcp.py`. -/
def initializeResult : Json :=
  Json.obj
    [("protocolVersion", Json.str "2024-11-05"),
     ("capabilities", Json.obj
        [("experimental", Json.obj []),
         ("prompts", Json.obj [("listChanged", Json.bool false)]),
         ("resources", Json.obj
            [("subscribe", Json.bool false), ("listChanged", Json.bool false)]),
         ("tools", Json.obj [("listChanged", Json.bool true)])]),
     ("serverInfo", Json.obj
        [("name", Json.str "MusicToolkit MCP Server"), ("version", Json.str "1.14.0")])]

/-- The static `tools/list` result of `mcp.py`: the WAV tool requires
`wav_file_path`; the humming tool requires `humming_file_path` and
`style_prompt`. -/
def toolsListResult : Json :=
  Json.obj [("tools", Json.arr
    [Json.obj
      [("name", Json.str "wav_to_music_score"),
       ("description", Json.str "Convert a WAV audio file to a MusicXML score and render it as an SVG image"),
       ("inputSchema", Json.obj
         [("type", Json.str "object"),
          ("properties", Json.obj
            [("wav_file_path", Json.obj
               [("type", Json.str "string"),
                ("description", Json.str "Path to the input WAV audio file")]),
             ("render_svg", Json.obj
               [("type", Json.str "boolean"),
                ("description", Json.str "Whether to render the score as SVG"),
                ("default", Json.bool true)])]),
          ("required", Json.arr [Json.str "wav_file_path"])])],
     Json.obj
      [("name", Json.str "generate_music_from_humming"),
       ("description", Json.str "Generate full music from a humming audio file using AI music generation"),
       ("inputSchema", Json.obj
         [("type", Json.str "object"),
          ("properties", Json.obj
            [("humming_file_path", Json.obj
               [("type", Json.str "string"),
                ("description", Json.str "Path to the humming audio file (.wav)")]),
             ("style_prompt", Json.obj
               [("type", Json.str "string"),
                ("description", Json.str "Text prompt describing the desired music style")]),
             ("generate_score", Json.obj
               [("type", Json.str "boolean"),
                ("description", Json.str "Whether to also generate a music score from the result"),
                ("default", Json.bool false)])]),
          ("required", Json.arr [Json.str "humming_file_path", Json.str "style_prompt"])])]])]

/-- The `tools/call` branch for the WAV tool of `mcp.py`.  The two
`arguments.get` reads may raise (non-dict `arguments`) into the outer
`except`; a falsy `wav_file_path` is a -32602 protocol error; a missing
file is a ❌-text inside a RESULT envelope.  The inner `try` of the source
only guards operations that are total in the model, so its
error-text branch is unreachable here. -/
def callWavTool (request_id : Json) (arguments : Json) (env : Env) :
    Except String Response :=
  match pyGetAttrD arguments "wav_file_path" Json.null with
  | Except.error e => Except.error e
  | Except.ok wav_file_path =>
  match pyGetAttrD arguments "render_svg" (Json.bool true) with
  | Except.error e => Except.error e
  | Except.ok render_svg =>
  if ! pyTruthy wav_file_path then
    Except.ok (errResp request_id (-32602) "Missing required parameter: wav_file_path")
  else
    let result :=
      if ! env.pathExists wav_file_path then
        "❌ WAV file not found: " ++ pyStr wav_file_path
      else
        let timestamp := env.nowTimestamp
        let musicxml_path := wav_to_musicxml wav_file_path timestamp env
        let result := "✅ Successfully generated MusicXML score from WAV file\n📁 MusicXML file: "
          ++ musicxml_path
        if pyTruthy render_svg then
          let svg_html := render_musicxml_via_verovio_api musicxml_path env
          if svg_html.startsWith "❌" || svg_html.startsWith "⚠️" then
            result ++ "\n⚠️ SVG rendering failed: " ++ svg_html
          else
            result ++ "\n🎼 Score rendered successfully as SVG\n" ++ svg_html
        else result
    Except.ok (okResp request_id (contentText result))

/-- The `tools/call` branch for the humming tool of `mcp.py`.  A falsy
`humming_file_path` OR a falsy `style_prompt` is a -32602 protocol error. -/
def callHummingTool (request_id : Json) (arguments : Json) (env : Env) :
    Except String Response :=
  match pyGetAttrD arguments "humming_file_path" Json.null with
  | Except.error e => Except.error e
  | Except.ok humming_file_path =>
  match pyGetAttrD arguments "style_prompt" Json.null with
  | Except.error e => Except.error e
  | Except.ok style_prompt =>
  match pyGetAttrD arguments "generate_score" (Json.bool false) with
  | Except.error e => Except.error e
  | Except.ok generate_score =>
  if ! pyTruthy humming_file_path || ! pyTruthy style_prompt then
    Except.ok (errResp request_id (-32602)
      "Missing required parameters: humming_file_path and style_prompt")
  else
    let result :=
      if ! env.pathExists humming_file_path then
        "❌ Humming file not found: " ++ pyStr humming_file_path
      else
        let generated_wav_path := generate_music_from_hum humming_file_path style_prompt env
        if generated_wav_path.startsWith "❌" then generated_wav_path
        else
          let result := "✅ Successfully generated music from humming\n📁 Generated music file: "
            ++ generated_wav_path ++ "\n🎵 Style: " ++ pyStr style_prompt
          if pyTruthy generate_score then
            let timestamp := env.nowTimestamp
            let score_path := wav_to_musicxml (Json.str generated_wav_path) timestamp env
            let result := result ++ "\n🎼 Music score generated: " ++ score_path
            let svg_html := render_musicxml_via_verovio_api score_path env
            if ! (svg_html.startsWith "❌" || svg_html.startsWith "⚠️") then
              result ++ "\n🎼 Score rendered as SVG:\n" ++ svg_html
            else result
          else result
    Except.ok (okResp request_id (contentText result))

/-- Body of `dispatch` with the response id (`request.id`, always echoed)
abstracted out. -/
def dispatchRid (rid : Json) (method : String) (params : PyDict) (env : Env) :
    Except String Response :=
  if method = "initialize" then
    Except.ok (okResp rid initializeResult)
  else if method = "tools/list" then
    Except.ok (okResp rid toolsListResult)
  else if method = "tools/call" then
    if jsonBeq (dictGetD params "name" Json.null) (Json.str "wav_to_music_score") then
      callWavTool rid (dictGetD params "arguments" (Json.obj [])) env
    else if jsonBeq (dictGetD params "name" Json.null) (Json.str "generate_music_from_humming") then
      callHummingTool rid (dictGetD params "arguments" (Json.obj [])) env
    else
      Except.ok (errResp rid (-32601)
        ("Unknown tool: " ++ pyStr (dictGetD params "name" Json.null)))
  else if method = "resources/list" then
    Except.ok (okResp rid (Json.obj [("resources", Json.arr
      [Json.obj
        [("uri", Json.str "musictoolkit://output"),
         ("name", Json.str "Generated Files"),
         ("description", Json.str "List of generated music files and scores")]])]))
  else if method = "prompts/list" then
    Except.ok (okResp rid (Json.obj [("prompts", Json.arr
      [Json.obj
        [("name", Json.str "music_processing"),
         ("description", Json.str "AI assistant for music processing and generation tasks")]])]))
  else
    Except.ok (errResp rid (-32601) ("Method not found: " ++ method))

/-- Dispatch on a validated request, i.e. the body of `mcp.py`
`handle_mcp_request` after `MCPRequest(**request_data)` succeeded.
`Except.error` is a Python exception escaping to the outer `except`. -/
def dispatch (request : MCPRequest) (env : Env) : Except String Response :=
  dispatchRid (Json.int request.id) request.method request.params env

/-- `mcp.py` `handle_mcp_request`: validate the request dict into an
`MCPRequest`, dispatch, and convert any escaping exception (including a
validation failure) into a -32603 error envelope whose id is
`request_data.get("id", 0)`. -/
def handle_mcp_request (request_data : PyDict) (env : Env) : Response :=
  match parseMCPRequest request_data with
  | Except.error e =>
      errResp (dictGetD request_data "id" (Json.int 0)) (-32603) ("Internal error: " ++ e)
  | Except.ok request =>
    match dispatch request env with
    | Except.ok r => r
    | Except.error e =>
        errResp (dictGetD request_data "id" (Json.int 0)) (-32603) ("Internal error: " ++ e)

end McpApi


section Fixtures

/-- A concrete offline world for `index.py`: both remote APIs unreachable. -/
def env0I : IndexApi.Env :=
  { nowTimestamp := "20240101_120000", nowDate := "2024-01-01",
    verovio := fun _ => HttpOutcome.raises "offline",
    musicgen := fun _ => HttpOutcome.raises "offline" }

/-- A concrete world for `mcp.py`: empty filesystem, remote APIs
unreachable. -/
def env0M : McpApi.Env :=
  { nowTimestamp := "20240101_120000",
    pathExists := fun _ => false,
    openFile := fun _ => some "open failed",
    verovioUpload := fun _ => HttpOutcome.raises "offline",
    musicgenUpload := fun _ _ => HttpOutcome.raises "offline" }

/-- A request with an id but no `method` field. -/
def reqNoMethod : PyDict := [("id", Json.int 7)]

/-- A request whose method is not one of the five supported ones. -/
def reqBadMethod : PyDict :=
  [("jsonrpc", Json.str "2.0"), ("id", Json.int 9),
   ("method", Json.str "tools/unsupported"), ("params", Json.obj [])]

/-- A `tools/call` of the WAV tool with an empty argument dict (the
required path argument is missing). -/
def reqWavNoArgs : PyDict :=
  [("jsonrpc", Json.str "2.0"), ("id", Json.int 3),
   ("method", Json.str "tools/call"),
   ("params", Json.obj [("name", Json.str "wav_to_music_score"),
                        ("arguments", Json.obj [])])]

/-- A `tools/call` of a tool that is not registered. -/
def reqUnknownTool : PyDict :=
  [("jsonrpc", Json.str "2.0"), ("id", Json.int 1),
   ("method", Json.str "tools/call"),
   ("params", Json.obj [("name", Json.str "nonexistent_tool")])]

/-- A `tools/call` of the humming tool with a humming path but no
`style_prompt` (spelled with the parameter names of each variant). -/
def reqHumNoStyleIndex : PyDict :=
  [("jsonrpc", Json.str "2.0"), ("id", Json.int 4),
   ("method", Json.str "tools/call"),
   ("params", Json.obj [("name", Json.str "generate_music_from_humming"),
                        ("arguments", Json.obj [("humming_path", Json.str "hum.wav")])])]

/-- As `reqHumNoStyleIndex` but with `mcp.py`'s argument name. -/
def reqHumNoStyleMcp : PyDict :=
  [("jsonrpc", Json.str "2.0"), ("id", Json.int 5),
   ("method", Json.str "tools/call"),
   ("params", Json.obj [("name", Json.str "generate_music_from_humming"),
                        ("arguments", Json.obj [("humming_file_path", Json.str "hum.wav")])])]

/-- A `tools/call` of the WAV tool on a path that does not exist (spelled
with `index.py`'s argument name). -/
def reqWavMissingFileIndex : PyDict :=
  [("jsonrpc", Json.str "2.0"), ("id", Json.int 6),
   ("method", Json.str "tools/call"),
   ("params", Json.obj [("name", Json.str "wav_to_music_score"),
                        ("arguments", Json.obj [("wav_path", Json.str "/nope.wav")])])]

/-- As `reqWavMissingFileIndex` but with `mcp.py`'s argument name. -/
def reqWavMissingFileMcp : PyDict :=
  [("jsonrpc", Json.str "2.0"), ("id", Json.int 6),
   ("method", Json.str "tools/call"),
   ("params", Json.obj [("name", Json.str "wav_to_music_score"),
                        ("arguments", Json.obj [("wav_file_path", Json.str "/nope.wav")])])]

/-- A plain `tools/list` request. -/
def reqToolsList : PyDict :=
  [("jsonrpc", Json.str "2.0"), ("id", Json.int 2),
   ("method", Json.str "tools/list"), ("params", Json.obj [])]

/-- A plain request with integer id 42 and a supported method. -/
def reqInit42 : PyDict :=
  [("jsonrpc", Json.str "2.0"), ("id", Json.int 42),
   ("method", Json.str "initialize"), ("params", Json.obj [])]

/-- The shape of a request dict that passes `mcp.py`'s pydantic validation
with integer id `n`, method `m` and params `pkvs`. -/
def validShape (d : PyDict) (n : Int) (m : String) (pkvs : PyDict) : Prop :=
  dictGet d "id" = some (Json.int n) ∧
  dictGet d "method" = some (Json.str m) ∧
  (dictGet d "jsonrpc" = none ∨ ∃ s, dictGet d "jsonrpc" = some (Json.str s)) ∧
  (dictGet d "params" = some (Json.obj pkvs) ∨
    (dictGet d "params" = none ∧ pkvs = []))

/-- The list of names of the tool descriptors of a `tools/list` result. -/
def toolNames (result : Json) : List (Option Json) :=
  match result with
  | Json.obj kvs =>
    match dictGet kvs "tools" with
    | some (Json.arr ts) =>
        ts.map (fun t => match t with
          | Json.obj tkvs => dictGet tkvs "name"
          | _ => none)
    | _ => []
  | _ => []

/-- The `required` list of the `i`-th tool descriptor of a `tools/list`
result. -/
def toolRequired (result : Json) (i : Nat) : Option Json :=
  match result with
  | Json.obj kvs =>
    match dictGet kvs "tools" with
    | some (Json.arr ts) =>
      match ts.getD i Json.null with
      | Json.obj tkvs =>
        match dictGet tkvs "inputSchema" with
        | some (Json.obj skvs) => dictGet skvs "required"
        | _ => none
      | _ => none
    | _ => none
  | _ => none

/-- `s` begins with `p`. -/
def strHasPrefix (s p : String) : Prop := ∃ rest, s = p ++ rest

/-- The tool result `index.py`'s WAV tool produces for the request
`reqWavMissingFileIndex` in the offline world `env0I` — a placeholder
marked successful (the path is never checked). -/
def wavPlaceholderResult : PyDict :=
  IndexApi.wav_to_music_score (Json.str "/nope.wav") (Json.bool true) Json.null env0I

/-- The five method names both dispatchers support. -/
def knownMethods : List String :=
  ["initialize", "tools/list", "tools/call", "resources/list", "prompts/list"]

end Fixtures

section StructuralLemmas

/-- Well-formedness of a response: version tag `"2.0"` and exactly one of
result / error. -/
def respWF (r : Response) : Prop :=
  r.jsonrpc = "2.0" ∧
    ((r.result.isSome ∧ r.error = none) ∨ (r.result = none ∧ r.error.isSome))

theorem IndexApi.handleTry_ok (m p rid : Json) (env : IndexApi.Env) (r : Response)
    (h : IndexApi.handleTry m p rid env = Except.ok r) :
    r.jsonrpc = "2.0" ∧ r.id = rid ∧
      ((r.error = none ∧ r.result.isSome) ∨
       (r.result = none ∧ errCode r = some (-32601))) := by
  unfold IndexApi.handleTry at h
  repeat' split at h
  all_goals cases h
  all_goals simp [IndexApi.okResp, IndexApi.errResp, errCode]

theorem IndexApi.idxHandleShape (d : PyDict) (env : IndexApi.Env) :
    (IndexApi.handle_mcp_request d env).jsonrpc = "2.0" ∧
    (IndexApi.handle_mcp_request d env).id = dictGetD d "id" (Json.int 0) ∧
    (((IndexApi.handle_mcp_request d env).error = none ∧
        (IndexApi.handle_mcp_request d env).result.isSome) ∨
     ((IndexApi.handle_mcp_request d env).result = none ∧
        (errCode (IndexApi.handle_mcp_request d env) = some (-32601) ∨
         errCode (IndexApi.handle_mcp_request d env) = some (-32603)))) := by
  unfold IndexApi.handle_mcp_request
  cases h : IndexApi.handleTry (dictGetD d "method" Json.null)
      (dictGetD d "params" (Json.obj [])) (dictGetD d "id" (Json.int 0)) env with
  | ok r =>
      have := IndexApi.handleTry_ok _ _ _ _ _ h
      simp only [h]
      exact ⟨this.1, this.2.1, by
        rcases this.2.2 with h1 | h2
        · exact Or.inl h1
        · exact Or.inr ⟨h2.1, Or.inl h2.2⟩⟩
  | error e =>
      simp [h, IndexApi.errResp, errCode]

end StructuralLemmas


theorem McpApi.callWavTool_ok (rid args : Json) (env : McpApi.Env) (r : Response)
    (h : McpApi.callWavTool rid args env = Except.ok r) :
    r.jsonrpc = "2.0" ∧ r.id = rid ∧
      ((r.error = none ∧ r.result.isSome) ∨
       (r.result = none ∧ errCode r = some (-32602))) := by
  unfold McpApi.callWavTool at h
  repeat' split at h
  all_goals cases h
  all_goals simp [McpApi.okResp, McpApi.errResp, errCode]

theorem McpApi.callHummingTool_ok (rid args : Json) (env : McpApi.Env) (r : Response)
    (h : McpApi.callHummingTool rid args env = Except.ok r) :
    r.jsonrpc = "2.0" ∧ r.id = rid ∧
      ((r.error = none ∧ r.result.isSome) ∨
       (r.result = none ∧ errCode r = some (-32602))) := by
  unfold McpApi.callHummingTool at h
  repeat' split at h
  all_goals cases h
  all_goals simp [McpApi.okResp, McpApi.errResp, errCode]

theorem McpApi.dispatchRid_ok (rid : Json) (method : String) (params : PyDict)
    (env : McpApi.Env) (r : Response)
    (h : McpApi.dispatchRid rid method params env = Except.ok r) :
    r.jsonrpc = "2.0" ∧ r.id = rid ∧
      ((r.error = none ∧ r.result.isSome) ∨
       (r.result = none ∧
         (errCode r = some (-32601) ∨ errCode r = some (-32602)))) := by
  unfold McpApi.dispatchRid at h
  repeat' split at h
  all_goals first
    | (refine ⟨(McpApi.callWavTool_ok _ _ _ _ h).1, (McpApi.callWavTool_ok _ _ _ _ h).2.1, ?_⟩
       rcases (McpApi.callWavTool_ok _ _ _ _ h).2.2 with h1 | h2
       · exact Or.inl h1
       · exact Or.inr ⟨h2.1, Or.inr h2.2⟩)
    | (refine ⟨(McpApi.callHummingTool_ok _ _ _ _ h).1,
        (McpApi.callHummingTool_ok _ _ _ _ h).2.1, ?_⟩
       rcases (McpApi.callHummingTool_ok _ _ _ _ h).2.2 with h1 | h2
       · exact Or.inl h1
       · exact Or.inr ⟨h2.1, Or.inr h2.2⟩)
    | (cases h; simp [McpApi.okResp, McpApi.errResp, errCode])

theorem McpApi.parse_id (d : PyDict) (req : McpApi.MCPRequest)
    (h : McpApi.parseMCPRequest d = Except.ok req) :
    dictGet d "id" = some (Json.int req.id) := by
  unfold McpApi.parseMCPRequest at h
  repeat' split at h
  all_goals cases h
  all_goals simp_all

theorem McpApi.mcpHandleShape (d : PyDict) (env : McpApi.Env) :
    (McpApi.handle_mcp_request d env).jsonrpc = "2.0" ∧
    (McpApi.handle_mcp_request d env).id = dictGetD d "id" (Json.int 0) ∧
    (((McpApi.handle_mcp_request d env).error = none ∧
        (McpApi.handle_mcp_request d env).result.isSome) ∨
     ((McpApi.handle_mcp_request d env).result = none ∧
        (errCode (McpApi.handle_mcp_request d env) = some (-32601) ∨
         errCode (McpApi.handle_mcp_request d env) = some (-32602) ∨
         errCode (McpApi.handle_mcp_request d env) = some (-32603)))) := by
  unfold McpApi.handle_mcp_request
  cases hp : McpApi.parseMCPRequest d with
  | error e => simp only [hp]; simp [McpApi.errResp, errCode]
  | ok req =>
    cases hd : McpApi.dispatch req env with
    | error e => simp only [hp, hd]; simp [McpApi.errResp, errCode]
    | ok r =>
      have hs := McpApi.dispatchRid_ok _ _ _ _ _ hd
      have hid := McpApi.parse_id _ _ hp
      simp only [hp, hd]
      refine ⟨hs.1, ?_, ?_⟩
      · rw [hs.2.1]; unfold dictGetD; rw [hid]; rfl
      · rcases hs.2.2 with h1 | h2
        · exact Or.inl h1
        · refine Or.inr ⟨h2.1, ?_⟩
          rcases h2.2 with ha | hb
          · exact Or.inl ha
          · exact Or.inr (Or.inl hb)

theorem McpApi.parse_method (d : PyDict) (req : McpApi.MCPRequest)
    (h : McpApi.parseMCPRequest d = Except.ok req) :
    dictGet d "method" = some (Json.str req.method) := by
  unfold McpApi.parseMCPRequest at h
  repeat' split at h
  all_goals cases h
  all_goals simp_all

theorem McpApi.parse_valid (d : PyDict) (n : Int) (m : String) (pkvs : PyDict)
    (h : validShape d n m pkvs) :
    ∃ jr, McpApi.parseMCPRequest d =
      Except.ok { jsonrpc := jr, id := n, method := m, params := pkvs } := by
  obtain ⟨hid, hm, hjr, hp⟩ := h
  unfold McpApi.parseMCPRequest
  rcases hp with hp | ⟨hp, rfl⟩ <;> rcases hjr with hjr | ⟨s, hjr⟩
  · exact ⟨"2.0", by simp [hjr, hid, hm, hp]⟩
  · exact ⟨s, by simp [hjr, hid, hm, hp]⟩
  · exact ⟨"2.0", by simp [hjr, hid, hm, hp]⟩
  · exact ⟨s, by simp [hjr, hid, hm, hp]⟩

theorem McpApi.handle_valid_ok (d : PyDict) (n : Int) (m : String) (pkvs : PyDict)
    (envM : McpApi.Env) (r : Response) (h : validShape d n m pkvs)
    (hd : McpApi.dispatchRid (Json.int n) m pkvs envM = Except.ok r) :
    McpApi.handle_mcp_request d envM = r := by
  obtain ⟨jr, hpars⟩ := McpApi.parse_valid d n m pkvs h
  unfold McpApi.handle_mcp_request
  simp only [hpars, McpApi.dispatch, hd]

/-- C2 helper: the `index.py` dispatcher always copies
`request_data.get("id", 0)` into the response. -/
theorem IndexApi.idxIdEcho (d : PyDict) (env : IndexApi.Env) :
    (IndexApi.handle_mcp_request d env).id = dictGetD d "id" (Json.int 0) :=
  (IndexApi.idxHandleShape d env).2.1

/-- C2 helper for `mcp.py`. -/
theorem McpApi.mcpIdEcho (d : PyDict) (env : McpApi.Env) :
    (McpApi.handle_mcp_request d env).id = dictGetD d "id" (Json.int 0) :=
  (McpApi.mcpHandleShape d env).2.1

/-- C2: for every request carrying an integer id, both dispatchers echo
that id unchanged in the response, whatever the method and whatever the
outcome. -/
theorem claim_C2_id_roundtrip (d : PyDict) (envI : IndexApi.Env) (envM : McpApi.Env)
    (n : Int) (h : dictGet d "id" = some (Json.int n)) :
    (IndexApi.handle_mcp_request d envI).id = Json.int n ∧
    (McpApi.handle_mcp_request d envM).id = Json.int n := by
  rw [IndexApi.idxIdEcho, McpApi.mcpIdEcho]
  unfold dictGetD
  rw [h]
  exact ⟨rfl, rfl⟩

/-- Witness for C2 at a concrete request with id 42. -/
theorem claim_C2_id_roundtrip_witness :
    (IndexApi.handle_mcp_request reqInit42 env0I).id = Json.int 42 ∧
    (McpApi.handle_mcp_request reqInit42 env0M).id = Json.int 42 :=
  claim_C2_id_roundtrip reqInit42 env0I env0M 42 rfl

/-- C8: every response of either dispatcher carries the version tag
`"2.0"`, an id (`request_data.get("id", 0)`), and exactly one of a result
field or an error field. -/
theorem claim_C8_response_wellformed (d : PyDict) (envI : IndexApi.Env)
    (envM : McpApi.Env) :
    (respWF (IndexApi.handle_mcp_request d envI) ∧
      (IndexApi.handle_mcp_request d envI).id = dictGetD d "id" (Json.int 0)) ∧
    (respWF (McpApi.handle_mcp_request d envM) ∧
      (McpApi.handle_mcp_request d envM).id = dictGetD d "id" (Json.int 0)) := by
  refine ⟨⟨⟨(IndexApi.idxHandleShape d envI).1, ?_⟩, (IndexApi.idxHandleShape d envI).2.1⟩,
          ⟨⟨(McpApi.mcpHandleShape d envM).1, ?_⟩, (McpApi.mcpHandleShape d envM).2.1⟩⟩
  · rcases (IndexApi.idxHandleShape d envI).2.2 with h1 | h2
    · exact Or.inl ⟨h1.2, h1.1⟩
    · refine Or.inr ⟨h2.1, ?_⟩
      rcases h2.2 with ha | ha <;>
        · unfold errCode at ha
          cases he : (IndexApi.handle_mcp_request d envI).error with
          | none => rw [he] at ha; cases ha
          | some x => simp
  · rcases (McpApi.mcpHandleShape d envM).2.2 with h1 | h2
    · exact Or.inl ⟨h1.2, h1.1⟩
    · refine Or.inr ⟨h2.1, ?_⟩
      rcases h2.2 with ha | ha | ha <;>
        · unfold errCode at ha
          cases he : (McpApi.handle_mcp_request d envM).error with
          | none => rw [he] at ha; cases ha
          | some x => simp

/-- C9: the result of `index.py`'s `wav_to_music_score` does not depend on
the `wav_path` argument at all — the parameter is never used (no open, no
read, no existence check appears in that function), so two calls differing
only in the path are definitionally equal. -/
theorem claim_C9_wav_path_independent (p1 p2 render_svg timestamp : Json)
    (env : IndexApi.Env) :
    IndexApi.wav_to_music_score p1 render_svg timestamp env =
    IndexApi.wav_to_music_score p2 render_svg timestamp env := rfl

/-- C10: `index.py`'s `generate_music_from_humming` marks every result as
successful: whatever the MusicGen API does (network failure, non-200
status, malformed body) and whatever the arguments are, the returned dict
has `success = True`. -/
theorem claim_C10_humming_always_success (humming_path generate_score timestamp : Json)
    (env : IndexApi.Env) :
    dictGet (IndexApi.generate_music_from_humming humming_path generate_score timestamp env)
      "success" = some (Json.bool true) := by
  unfold IndexApi.generate_music_from_humming
  repeat' split
  all_goals simp [dictStrAppend, dictSet, dictGet]

/-- C6 counterexample: on a request with id 7 and no `method` field, the
`mcp.py` dispatcher (cited by the claim together with the `index.py` one)
answers with error code -32603 — pydantic validation of the missing
required `method` field fails and is caught as an internal error — not
with -32601 as the claim states. -/
theorem claim_C6_counterexample :
    errCode (McpApi.handle_mcp_request reqNoMethod env0M) = some (-32603) ∧
    (some (-32603 : Int) ≠ some (-32601 : Int)) := ⟨rfl, by decide⟩

/-- C6 amended: on a request without a `method` field, the `index.py`
dispatcher returns -32601 and the `mcp.py` dispatcher returns -32603 (its
pydantic validation rejects the request before dispatch); both echo the
request id when present and default to 0 otherwise. -/
theorem claim_C6_missing_method (d : PyDict) (envI : IndexApi.Env) (envM : McpApi.Env)
    (h : dictGet d "method" = none) :
    (errCode (IndexApi.handle_mcp_request d envI) = some (-32601) ∧
      (IndexApi.handle_mcp_request d envI).id = dictGetD d "id" (Json.int 0)) ∧
    (errCode (McpApi.handle_mcp_request d envM) = some (-32603) ∧
      (McpApi.handle_mcp_request d envM).id = dictGetD d "id" (Json.int 0)) := by
  refine ⟨⟨?_, IndexApi.idxIdEcho d envI⟩, ⟨?_, McpApi.mcpIdEcho d envM⟩⟩
  · have hm : dictGetD d "method" Json.null = Json.null := by
      unfold dictGetD; rw [h]; rfl
    have ht : IndexApi.handleTry Json.null (dictGetD d "params" (Json.obj []))
        (dictGetD d "id" (Json.int 0)) envI =
        Except.ok (IndexApi.errResp (dictGetD d "id" (Json.int 0)) (-32601)
          ("Method not found: " ++ pyStr Json.null)) := rfl
    unfold IndexApi.handle_mcp_request
    rw [hm, ht]
    rfl
  · cases hp : McpApi.parseMCPRequest d with
    | error e => unfold McpApi.handle_mcp_request; simp [hp, McpApi.errResp, errCode]
    | ok req =>
        have := McpApi.parse_method d req hp
        rw [h] at this
        cases this

/-- Witness for the amended C6 at a concrete method-less request. -/
theorem claim_C6_missing_method_witness :
    errCode (IndexApi.handle_mcp_request reqNoMethod env0I) = some (-32601) ∧
    errCode (McpApi.handle_mcp_request reqNoMethod env0M) = some (-32603) :=
  ⟨(claim_C6_missing_method reqNoMethod env0I env0M rfl).1.1,
   (claim_C6_missing_method reqNoMethod env0I env0M rfl).2.1⟩

/-- Computation rule: the `tools/call` branch of the `index.py` try-body
reduces to the tool lookup. -/
theorem IndexApi.handleTry_tools_call (pkvs : PyDict) (rid : Json) (envI : IndexApi.Env) :
    IndexApi.handleTry (Json.str "tools/call") (Json.obj pkvs) rid envI =
      match IndexApi.callTool (dictGetD pkvs "name" Json.null)
          (dictGetD pkvs "arguments" (Json.obj [])) envI with
      | Except.error e => Except.error e
      | Except.ok result =>
          Except.ok (IndexApi.okResp rid (Json.obj
            [("content", Json.arr
              [Json.obj [("type", Json.str "text"),
                         ("text", Json.str (dumpsDict2 result))]])])) := rfl

/-- Computation rule: a `tools/call` request with object params reduces the
whole `index.py` dispatcher to the tool lookup (wrapped in the -32603
catch). -/
theorem IndexApi.handle_tools_call (d : PyDict) (envI : IndexApi.Env) (pkvs : PyDict)
    (hm : dictGetD d "method" Json.null = Json.str "tools/call")
    (hp : dictGetD d "params" (Json.obj []) = Json.obj pkvs) :
    IndexApi.handle_mcp_request d envI =
      match IndexApi.callTool (dictGetD pkvs "name" Json.null)
          (dictGetD pkvs "arguments" (Json.obj [])) envI with
      | Except.error e =>
          IndexApi.errResp (dictGetD d "id" (Json.int 0)) (-32603) ("Internal error: " ++ e)
      | Except.ok result =>
          IndexApi.okResp (dictGetD d "id" (Json.int 0)) (Json.obj
            [("content", Json.arr
              [Json.obj [("type", Json.str "text"),
                         ("text", Json.str (dumpsDict2 result))]])]) := by
  unfold IndexApi.handle_mcp_request
  rw [hm, hp, IndexApi.handleTry_tools_call]
  cases hc : IndexApi.callTool (dictGetD pkvs "name" Json.null)
      (dictGetD pkvs "arguments" (Json.obj [])) envI with
  | ok result => rfl
  | error e => rfl

/-- C3 counterexample: a `tools/call` naming `nonexistent_tool` makes the
`index.py` dispatcher (cited by the claim) raise
`Exception("Unknown tool: ...")`, which its catch converts to -32603 — not
-32601 as the claim states. -/
theorem claim_C3_counterexample :
    errCode (IndexApi.handle_mcp_request reqUnknownTool env0I) = some (-32603) ∧
    (some (-32603 : Int) ≠ some (-32601 : Int)) := ⟨rfl, by decide⟩

/-- C3 amended: a `tools/call` naming a tool outside the fixed set of two
never crashes either dispatcher, but the error codes differ: `mcp.py`
answers -32601, while `index.py` raises internally and answers -32603. -/
theorem claim_C3_unknown_tool (d : PyDict) (envI : IndexApi.Env) (envM : McpApi.Env)
    (n : Int) (pkvs : PyDict) (nm : Json)
    (hshape : validShape d n "tools/call" pkvs)
    (hname : dictGetD pkvs "name" Json.null = nm)
    (h1 : jsonBeq nm (Json.str "wav_to_music_score") = false)
    (h2 : jsonBeq nm (Json.str "generate_music_from_humming") = false) :
    errCode (IndexApi.handle_mcp_request d envI) = some (-32603) ∧
    errCode (McpApi.handle_mcp_request d envM) = some (-32601) := by
  have hm2 : dictGetD d "method" Json.null = Json.str "tools/call" := by
    unfold dictGetD; rw [hshape.2.1]; rfl
  have hp2 : dictGetD d "params" (Json.obj []) = Json.obj pkvs := by
    rcases hshape.2.2.2 with hp | ⟨hp, rfl⟩ <;> (unfold dictGetD; rw [hp]; rfl)
  have hc : IndexApi.callTool nm (dictGetD pkvs "arguments" (Json.obj [])) envI =
      Except.error ("Unknown tool: " ++ pyStr nm) := by
    unfold IndexApi.callTool; rw [h1, h2]; rfl
  constructor
  · rw [IndexApi.handle_tools_call d envI pkvs hm2 hp2, hname, hc]
    rfl
  · have hd : McpApi.dispatchRid (Json.int n) "tools/call" pkvs envM =
        Except.ok (McpApi.errResp (Json.int n) (-32601) ("Unknown tool: " ++ pyStr nm)) := by
      unfold McpApi.dispatchRid
      rw [hname]
      simp only [h1, h2]
      rfl
    rw [McpApi.handle_valid_ok d n "tools/call" pkvs envM _ hshape hd]
    rfl

/-- Witness for the amended C3 at a concrete `nonexistent_tool` call. -/
theorem claim_C3_unknown_tool_witness :
    errCode (IndexApi.handle_mcp_request reqUnknownTool env0I) = some (-32603) ∧
    errCode (McpApi.handle_mcp_request reqUnknownTool env0M) = some (-32601) :=
  claim_C3_unknown_tool reqUnknownTool env0I env0M 1
    [("name", Json.str "nonexistent_tool")] (Json.str "nonexistent_tool")
    ⟨rfl, rfl, Or.inr ⟨"2.0", rfl⟩, Or.inl rfl⟩ rfl rfl rfl

/-- C4 counterexample: the `index.py` variant's humming tool (cited by the
claim) has no `style_prompt` parameter at all; a `tools/call` without one
is answered with an ordinary RESULT envelope, not the claimed -32602. -/
theorem claim_C4_counterexample :
    errCode (IndexApi.handle_mcp_request reqHumNoStyleIndex env0I) = none ∧
    (IndexApi.handle_mcp_request reqHumNoStyleIndex env0I).result.isSome = true ∧
    (none ≠ some (-32602 : Int)) := ⟨rfl, rfl, by decide⟩

/-- C4 amended: calling the humming tool without a `style_prompt` argument
is a -32602 protocol error in the `mcp.py` variant; in the `index.py`
variant the tool has no `style_prompt` parameter, so the same
style-prompt-less call (with that variant's `humming_path` spelling)
yields an ordinary result envelope instead. -/
theorem claim_C4_humming_missing_style (d : PyDict) (envI : IndexApi.Env)
    (envM : McpApi.Env) (n : Int) (pkvs akvs : PyDict)
    (hshape : validShape d n "tools/call" pkvs)
    (hname : dictGetD pkvs "name" Json.null = Json.str "generate_music_from_humming")
    (harg : dictGetD pkvs "arguments" (Json.obj []) = Json.obj akvs)
    (hstyle : dictGet akvs "style_prompt" = none) :
    errCode (McpApi.handle_mcp_request d envM) = some (-32602) ∧
    (∀ (w : Json), akvs = [("humming_path", w)] →
      errCode (IndexApi.handle_mcp_request d envI) = none) := by
  have hsp : dictGetD akvs "style_prompt" Json.null = Json.null := by
    unfold dictGetD; rw [hstyle]; rfl
  constructor
  · have hd : McpApi.dispatchRid (Json.int n) "tools/call" pkvs envM =
        Except.ok (McpApi.errResp (Json.int n) (-32602)
          "Missing required parameters: humming_file_path and style_prompt") := by
      unfold McpApi.dispatchRid
      rw [hname]
      show McpApi.callHummingTool (Json.int n) (dictGetD pkvs "arguments" (Json.obj [])) envM = _
      rw [harg]
      unfold McpApi.callHummingTool
      show (if ! pyTruthy (dictGetD akvs "humming_file_path" Json.null)
            || ! pyTruthy (dictGetD akvs "style_prompt" Json.null) then _ else _) = _
      rw [hsp]
      simp [pyTruthy]
    rw [McpApi.handle_valid_ok d n "tools/call" pkvs envM _ hshape hd]
    rfl
  · intro w hw
    have hm2 : dictGetD d "method" Json.null = Json.str "tools/call" := by
      unfold dictGetD; rw [hshape.2.1]; rfl
    have hp2 : dictGetD d "params" (Json.obj []) = Json.obj pkvs := by
      rcases hshape.2.2.2 with hp | ⟨hp, rfl⟩ <;> (unfold dictGetD; rw [hp]; rfl)
    have hc : IndexApi.callTool (Json.str "generate_music_from_humming")
        (Json.obj [("humming_path", w)]) envI =
        Except.ok (IndexApi.generate_music_from_humming w (Json.bool true) Json.null envI) := rfl
    rw [IndexApi.handle_tools_call d envI pkvs hm2 hp2, hname, harg, hw, hc]
    rfl

/-- Witness for the amended C4 at a concrete style-prompt-less call. -/
theorem claim_C4_humming_missing_style_witness :
    errCode (McpApi.handle_mcp_request reqHumNoStyleIndex env0M) = some (-32602) ∧
    errCode (IndexApi.handle_mcp_request reqHumNoStyleIndex env0I) = none :=
  have h := claim_C4_humming_missing_style reqHumNoStyleIndex env0I env0M 4
    [("name", Json.str "generate_music_from_humming"),
     ("arguments", Json.obj [("humming_path", Json.str "hum.wav")])]
    [("humming_path", Json.str "hum.wav")]
    ⟨rfl, rfl, Or.inr ⟨"2.0", rfl⟩, Or.inl rfl⟩ rfl rfl rfl
  ⟨h.1, h.2 (Json.str "hum.wav") rfl⟩

/-- A string with prefix `p` starts with the first character of `p`. -/
theorem strHasPrefix_head (s p : String) (c : Char) (cs : List Char)
    (hp : p.data = c :: cs) (h : strHasPrefix s p) : s.data.head? = some c := by
  obtain ⟨r, rfl⟩ := h
  rw [String.data_append, hp]
  rfl

/-- A serialized dict whose first entry is `"success": true` begins with
that entry after the opening brace. -/
theorem dumpsIndObj_success (kvs : PyDict) :
    ∃ t, dumpsIndObj 2 (("success", Json.bool true) :: kvs) =
      "  \"success\": true" ++ t := by
  cases kvs with
  | nil => exact ⟨"", by decide⟩
  | cons kv2 r =>
      refine ⟨",\n" ++ dumpsIndObj 2 (kv2 :: r), ?_⟩
      have h1 : indentSp 2 ++ jsonQuote "success" ++ ": " ++ dumpsInd 2 (Json.bool true) =
          "  \"success\": true" := by decide
      show indentSp 2 ++ jsonQuote "success" ++ ": " ++ dumpsInd 2 (Json.bool true)
          ++ ",\n" ++ dumpsIndObj 2 (kv2 :: r) = _
      rw [h1, String.append_assoc]

/-- A serialized dict whose first entry is `"success": true` begins with
an opening brace and that entry. -/
theorem dumpsDict2_success (kvs : PyDict) :
    strHasPrefix (dumpsDict2 (("success", Json.bool true) :: kvs))
      "\x7b\n  \"success\": true" := by
  obtain ⟨t, ht⟩ := dumpsIndObj_success kvs
  refine ⟨t ++ ("\n" ++ (indentSp 0 ++ "\x7d")), ?_⟩
  show "\x7b\n" ++ dumpsIndObj 2 (("success", Json.bool true) :: kvs)
      ++ "\n" ++ indentSp 0 ++ "\x7d" = _
  rw [ht]
  apply String.ext
  simp [String.data_append, indentSp]

/-- The result of `index.py`'s WAV tool always starts with the entry
`"success": True`. -/
theorem IndexApi.wav_result_head (p r t : Json) (env : IndexApi.Env) :
    ∃ tail, IndexApi.wav_to_music_score p r t env =
      ("success", Json.bool true) :: tail := by
  unfold IndexApi.wav_to_music_score
  dsimp only
  repeat' split
  all_goals exact ⟨_, rfl⟩

/-- C5 counterexample: the `index.py` variant (cited by the claim) never
checks the path: calling its WAV tool on the nonexistent `/nope.wav`
returns a result envelope whose text is the serialized success
placeholder, beginning with an opening brace and `"success": true` — it is
not prefixed by a `file not found` failure marker. -/
theorem claim_C5_counterexample :
    errCode (IndexApi.handle_mcp_request reqWavMissingFileIndex env0I) = none ∧
    respText (IndexApi.handle_mcp_request reqWavMissingFileIndex env0I) =
      some (dumpsDict2 wavPlaceholderResult) ∧
    strHasPrefix (dumpsDict2 wavPlaceholderResult) "\x7b\n  \"success\": true" ∧
    ¬ strHasPrefix (dumpsDict2 wavPlaceholderResult) "file not found" ∧
    ¬ strHasPrefix (dumpsDict2 wavPlaceholderResult) "❌ WAV file not found" := by
  have hpref : strHasPrefix (dumpsDict2 wavPlaceholderResult) "\x7b\n  \"success\": true" := by
    obtain ⟨tail, ht⟩ :=
      IndexApi.wav_result_head (Json.str "/nope.wav") (Json.bool true) Json.null env0I
    show strHasPrefix (dumpsDict2 (IndexApi.wav_to_music_score
      (Json.str "/nope.wav") (Json.bool true) Json.null env0I)) _
    rw [ht]
    exact dumpsDict2_success tail
  have hhead := strHasPrefix_head _ _ '\x7b' ("\n  \"success\": true".data)
    (by decide) hpref
  refine ⟨rfl, rfl, hpref, ?_, ?_⟩
  · intro hbad
    have h2 := strHasPrefix_head _ _ 'f' ("ile not found".data) (by decide) hbad
    rw [hhead] at h2
    have : '\x7b' = 'f' := Option.some.inj h2
    cases this
  · intro hbad
    have h2 := strHasPrefix_head _ _ '❌' (" WAV file not found".data) (by decide) hbad
    rw [hhead] at h2
    have : '\x7b' = '❌' := Option.some.inj h2
    cases this

/-- C5 amended: in the `mcp.py` variant, calling the WAV tool on a path
that does not exist yields a successful envelope whose text is the
❌-prefixed `WAV file not found` message, not a protocol error; in the
`index.py` variant there is no existence check at all — the same call
returns the serialized success placeholder whatever the path. -/
theorem claim_C5_wav_file_not_found :
    (∀ (d : PyDict) (envM : McpApi.Env) (n : Int) (pkvs akvs : PyDict) (p : String),
      validShape d n "tools/call" pkvs →
      dictGetD pkvs "name" Json.null = Json.str "wav_to_music_score" →
      dictGetD pkvs "arguments" (Json.obj []) = Json.obj akvs →
      dictGetD akvs "wav_file_path" Json.null = Json.str p →
      p ≠ "" →
      envM.pathExists (Json.str p) = false →
      McpApi.handle_mcp_request d envM =
        McpApi.okResp (Json.int n)
          (McpApi.contentText ("❌ WAV file not found: " ++ p))) ∧
    (∀ (d : PyDict) (envI : IndexApi.Env) (pkvs : PyDict) (w : Json),
      dictGetD d "method" Json.null = Json.str "tools/call" →
      dictGetD d "params" (Json.obj []) = Json.obj pkvs →
      dictGetD pkvs "name" Json.null = Json.str "wav_to_music_score" →
      dictGetD pkvs "arguments" (Json.obj []) = Json.obj [("wav_path", w)] →
      errCode (IndexApi.handle_mcp_request d envI) = none ∧
      respText (IndexApi.handle_mcp_request d envI) =
        some (dumpsDict2
          (IndexApi.wav_to_music_score w (Json.bool true) Json.null envI))) := by
  constructor
  · intro d envM n pkvs akvs p hshape hname harg hwav hne hexists
    have htr : pyTruthy (Json.str p) = true := by simp [pyTruthy, hne]
    have hd : McpApi.dispatchRid (Json.int n) "tools/call" pkvs envM =
        Except.ok (McpApi.okResp (Json.int n)
          (McpApi.contentText ("❌ WAV file not found: " ++ p))) := by
      unfold McpApi.dispatchRid
      rw [hname]
      show McpApi.callWavTool (Json.int n) (dictGetD pkvs "arguments" (Json.obj [])) envM = _
      rw [harg]
      unfold McpApi.callWavTool
      show (if ! pyTruthy (dictGetD akvs "wav_file_path" Json.null) then _ else _) = _
      rw [hwav, htr]
      show Except.ok (McpApi.okResp (Json.int n) (McpApi.contentText
        (if ! envM.pathExists (Json.str p) then ("❌ WAV file not found: " ++ pyStr (Json.str p))
         else _))) = _
      rw [hexists]
      rfl
    rw [McpApi.handle_valid_ok d n "tools/call" pkvs envM _ hshape hd]
  · intro d envI pkvs w hm hp hname harg
    have hc : IndexApi.callTool (Json.str "wav_to_music_score")
        (Json.obj [("wav_path", w)]) envI =
        Except.ok (IndexApi.wav_to_music_score w (Json.bool true) Json.null envI) := rfl
    rw [IndexApi.handle_tools_call d envI pkvs hm hp, hname, harg, hc]
    exact ⟨rfl, rfl⟩

/-- Witness for the amended C5 at the concrete missing path `/nope.wav`. -/
theorem claim_C5_wav_file_not_found_witness :
    McpApi.handle_mcp_request reqWavMissingFileMcp env0M =
      McpApi.okResp (Json.int 6)
        (McpApi.contentText "❌ WAV file not found: /nope.wav") ∧
    errCode (IndexApi.handle_mcp_request reqWavMissingFileIndex env0I) = none := by
  constructor
  · have h := claim_C5_wav_file_not_found.1 reqWavMissingFileMcp env0M 6
      [("name", Json.str "wav_to_music_score"),
       ("arguments", Json.obj [("wav_file_path", Json.str "/nope.wav")])]
      [("wav_file_path", Json.str "/nope.wav")] "/nope.wav"
      ⟨rfl, rfl, Or.inr ⟨"2.0", rfl⟩, Or.inl rfl⟩ rfl rfl rfl (by decide) rfl
    rw [h]
    rfl
  · exact (claim_C5_wav_file_not_found.2 reqWavMissingFileIndex env0I
      [("name", Json.str "wav_to_music_score"),
       ("arguments", Json.obj [("wav_path", Json.str "/nope.wav")])]
      (Json.str "/nope.wav") rfl rfl rfl rfl).1

/-- C7 counterexample: in the `index.py` variant (cited by the claim), the
`tools/list` descriptor of the humming tool requires only `humming_path` —
`style_prompt` is not among its required parameters (it is not even a
property), contradicting the claimed required-parameter set. -/
theorem claim_C7_counterexample :
    toolRequired ((IndexApi.handle_mcp_request reqToolsList env0I).result.getD Json.null) 1 =
      some (Json.arr [Json.str "humming_path"]) ∧
    Json.arr [Json.str "humming_path"] ≠
      Json.arr [Json.str "humming_path", Json.str "style_prompt"] := by
  refine ⟨rfl, ?_⟩
  intro h
  simp at h

/-- C7 amended: `tools/list` always returns exactly the two descriptors
`wav_to_music_score` and `generate_music_from_humming` in both variants;
the WAV tool requires its path parameter (`wav_path` in `index.py`,
`wav_file_path` in `mcp.py`); the humming tool requires
`humming_file_path` and `style_prompt` in `mcp.py` but only
`humming_path` in `index.py`. -/
theorem claim_C7_tools_list (d : PyDict) (envI : IndexApi.Env) (envM : McpApi.Env)
    (n : Int) (pkvs : PyDict) (hshape : validShape d n "tools/list" pkvs) :
    ((IndexApi.handle_mcp_request d envI).result = some IndexApi.toolsListResult ∧
     (McpApi.handle_mcp_request d envM).result = some McpApi.toolsListResult) ∧
    (toolNames IndexApi.toolsListResult =
       [some (Json.str "wav_to_music_score"), some (Json.str "generate_music_from_humming")] ∧
     toolNames McpApi.toolsListResult =
       [some (Json.str "wav_to_music_score"), some (Json.str "generate_music_from_humming")]) ∧
    (toolRequired IndexApi.toolsListResult 0 = some (Json.arr [Json.str "wav_path"]) ∧
     toolRequired IndexApi.toolsListResult 1 = some (Json.arr [Json.str "humming_path"])) ∧
    (toolRequired McpApi.toolsListResult 0 = some (Json.arr [Json.str "wav_file_path"]) ∧
     toolRequired McpApi.toolsListResult 1 =
       some (Json.arr [Json.str "humming_file_path", Json.str "style_prompt"])) := by
  have hm2 : dictGetD d "method" Json.null = Json.str "tools/list" := by
    unfold dictGetD; rw [hshape.2.1]; rfl
  refine ⟨⟨?_, ?_⟩, ⟨rfl, rfl⟩, ⟨rfl, rfl⟩, ⟨rfl, rfl⟩⟩
  · unfold IndexApi.handle_mcp_request
    rw [hm2]
    rfl
  · have hd : McpApi.dispatchRid (Json.int n) "tools/list" pkvs envM =
        Except.ok (McpApi.okResp (Json.int n) McpApi.toolsListResult) := rfl
    rw [McpApi.handle_valid_ok d n "tools/list" pkvs envM _ hshape hd]
    rfl

/-- Witness for the amended C7 at a concrete `tools/list` request. -/
theorem claim_C7_tools_list_witness :
    (IndexApi.handle_mcp_request reqToolsList env0I).result = some IndexApi.toolsListResult ∧
    (McpApi.handle_mcp_request reqToolsList env0M).result = some McpApi.toolsListResult :=
  (claim_C7_tools_list reqToolsList env0I env0M 2 []
    ⟨rfl, rfl, Or.inr ⟨"2.0", rfl⟩, Or.inl rfl⟩).1

/-- Every `index.py` response is well-formed. -/
theorem IndexApi.idxHandleWF (d : PyDict) (env : IndexApi.Env) :
    respWF (IndexApi.handle_mcp_request d env) := by
  refine ⟨(IndexApi.idxHandleShape d env).1, ?_⟩
  rcases (IndexApi.idxHandleShape d env).2.2 with h1 | h2
  · exact Or.inl ⟨h1.2, h1.1⟩
  · refine Or.inr ⟨h2.1, ?_⟩
    rcases h2.2 with ha | ha <;>
      · unfold errCode at ha
        cases he : (IndexApi.handle_mcp_request d env).error with
        | none => rw [he] at ha; cases ha
        | some x => simp

/-- Every `mcp.py` response is well-formed. -/
theorem McpApi.mcpHandleWF (d : PyDict) (env : McpApi.Env) :
    respWF (McpApi.handle_mcp_request d env) := by
  refine ⟨(McpApi.mcpHandleShape d env).1, ?_⟩
  rcases (McpApi.mcpHandleShape d env).2.2 with h1 | h2
  · exact Or.inl ⟨h1.2, h1.1⟩
  · refine Or.inr ⟨h2.1, ?_⟩
    rcases h2.2 with ha | ha | ha <;>
      · unfold errCode at ha
        cases he : (McpApi.handle_mcp_request d env).error with
        | none => rw [he] at ha; cases ha
        | some x => simp

/-- C1 counterexample: a `tools/call` of the WAV tool with an empty
argument dict — the required `wav_path` parameter is missing — makes the
`index.py` dispatcher (cited by the claim) answer -32603 (the binding
`TypeError` is caught as an internal error), not -32602 as the claim
states; `index.py` has no -32602 path at all. -/
theorem claim_C1_counterexample :
    (IndexApi.handle_mcp_request reqWavNoArgs env0I).error =
      some { code := -32603,
             message := "Internal error: wav_to_music_score() missing 1 required positional argument: \x27wav_path\x27" } ∧
    (some (-32603 : Int) ≠ some (-32602 : Int)) := ⟨rfl, by decide⟩

/-- C1 amended: both dispatchers return exactly one well-formed response
for every request and never raise past their boundary; every escaping
internal exception is converted to a -32603 error envelope; an unknown
method yields -32601 in both variants; a missing required tool parameter
yields -32602 in the `mcp.py` variant, while in the `index.py` variant it
surfaces as a caught `TypeError` with code -32603 (that variant has no
-32602 path). -/
theorem claim_C1_dispatcher_contract :
    (∀ (d : PyDict) (envI : IndexApi.Env) (envM : McpApi.Env),
      respWF (IndexApi.handle_mcp_request d envI) ∧
      respWF (McpApi.handle_mcp_request d envM)) ∧
    (∀ (d : PyDict) (envI : IndexApi.Env) (e : String),
      IndexApi.handleTry (dictGetD d "method" Json.null)
          (dictGetD d "params" (Json.obj [])) (dictGetD d "id" (Json.int 0)) envI =
        Except.error e →
      IndexApi.handle_mcp_request d envI =
        IndexApi.errResp (dictGetD d "id" (Json.int 0)) (-32603) ("Internal error: " ++ e)) ∧
    (∀ (d : PyDict) (envM : McpApi.Env) (e : String),
      McpApi.parseMCPRequest d = Except.error e →
      McpApi.handle_mcp_request d envM =
        McpApi.errResp (dictGetD d "id" (Json.int 0)) (-32603) ("Internal error: " ++ e)) ∧
    (∀ (d : PyDict) (envM : McpApi.Env) (req : McpApi.MCPRequest) (e : String),
      McpApi.parseMCPRequest d = Except.ok req →
      McpApi.dispatch req envM = Except.error e →
      McpApi.handle_mcp_request d envM =
        McpApi.errResp (dictGetD d "id" (Json.int 0)) (-32603) ("Internal error: " ++ e)) ∧
    (∀ (d : PyDict) (envI : IndexApi.Env) (m : String),
      dictGet d "method" = some (Json.str m) → m ∉ knownMethods →
      errCode (IndexApi.handle_mcp_request d envI) = some (-32601)) ∧
    (∀ (d : PyDict) (envM : McpApi.Env) (n : Int) (m : String) (pkvs : PyDict),
      validShape d n m pkvs → m ∉ knownMethods →
      errCode (McpApi.handle_mcp_request d envM) = some (-32601)) ∧
    (∀ (d : PyDict) (envM : McpApi.Env) (n : Int) (pkvs akvs : PyDict),
      validShape d n "tools/call" pkvs →
      dictGetD pkvs "name" Json.null = Json.str "wav_to_music_score" →
      dictGetD pkvs "arguments" (Json.obj []) = Json.obj akvs →
      dictGetD akvs "wav_file_path" Json.null = Json.null →
      errCode (McpApi.handle_mcp_request d envM) = some (-32602)) ∧
    (∀ (d : PyDict) (envI : IndexApi.Env) (pkvs : PyDict),
      dictGetD d "method" Json.null = Json.str "tools/call" →
      dictGetD d "params" (Json.obj []) = Json.obj pkvs →
      dictGetD pkvs "name" Json.null = Json.str "wav_to_music_score" →
      dictGetD pkvs "arguments" (Json.obj []) = Json.obj [] →
      errCode (IndexApi.handle_mcp_request d envI) = some (-32603)) := by
  refine ⟨fun d envI envM => ⟨IndexApi.idxHandleWF d envI, McpApi.mcpHandleWF d envM⟩,
    ?_, ?_, ?_, ?_, ?_, ?_, ?_⟩
  · intro d envI e h
    unfold IndexApi.handle_mcp_request
    rw [h]
  · intro d envM e h
    unfold McpApi.handle_mcp_request
    rw [h]
  · intro d envM req e hp hd
    unfold McpApi.handle_mcp_request
    simp only [hp, hd]
  · intro d envI m hm hnot
    simp only [knownMethods, List.mem_cons, List.not_mem_nil, or_false] at hnot
    push_neg at hnot
    obtain ⟨h1, h2, h3, h4, h5⟩ := hnot
    have hm2 : dictGetD d "method" Json.null = Json.str m := by
      unfold dictGetD; rw [hm]; rfl
    have e1 : (m == "initialize") = false := beq_eq_false_iff_ne.mpr h1
    have e2 : (m == "tools/list") = false := beq_eq_false_iff_ne.mpr h2
    have e3 : (m == "tools/call") = false := beq_eq_false_iff_ne.mpr h3
    have e4 : (m == "resources/list") = false := beq_eq_false_iff_ne.mpr h4
    have e5 : (m == "prompts/list") = false := beq_eq_false_iff_ne.mpr h5
    unfold IndexApi.handle_mcp_request
    rw [hm2]
    unfold IndexApi.handleTry
    simp [jsonBeq, e1, e2, e3, e4, e5, IndexApi.errResp, errCode]
  · intro d envM n m pkvs hshape hnot
    simp only [knownMethods, List.mem_cons, List.not_mem_nil, or_false] at hnot
    push_neg at hnot
    obtain ⟨h1, h2, h3, h4, h5⟩ := hnot
    have hd : McpApi.dispatchRid (Json.int n) m pkvs envM =
        Except.ok (McpApi.errResp (Json.int n) (-32601) ("Method not found: " ++ m)) := by
      unfold McpApi.dispatchRid
      simp [h1, h2, h3, h4, h5]
    rw [McpApi.handle_valid_ok d n m pkvs envM _ hshape hd]
    rfl
  · intro d envM n pkvs akvs hshape hname harg hwav
    have hd : McpApi.dispatchRid (Json.int n) "tools/call" pkvs envM =
        Except.ok (McpApi.errResp (Json.int n) (-32602)
          "Missing required parameter: wav_file_path") := by
      unfold McpApi.dispatchRid
      rw [hname]
      show McpApi.callWavTool (Json.int n) (dictGetD pkvs "arguments" (Json.obj [])) envM = _
      rw [harg]
      unfold McpApi.callWavTool
      show (if ! pyTruthy (dictGetD akvs "wav_file_path" Json.null) then _ else _) = _
      rw [hwav]
      rfl
    rw [McpApi.handle_valid_ok d n "tools/call" pkvs envM _ hshape hd]
    rfl
  · intro d envI pkvs hm hp hname harg
    have hc : IndexApi.callTool (Json.str "wav_to_music_score") (Json.obj []) envI =
        Except.error "wav_to_music_score() missing 1 required positional argument: \x27wav_path\x27" := rfl
    rw [IndexApi.handle_tools_call d envI pkvs hm hp, hname, harg, hc]
    rfl

/-- Witness for the amended C1 at concrete requests: a well-formed
response on a normal call, the -32603 conversion of the argument-binding
`TypeError`, -32601 on an unsupported method in both variants, -32602 for
the missing `wav_file_path` in `mcp.py`, and -32603 for the missing
`wav_path` in `index.py`. -/
theorem claim_C1_dispatcher_contract_witness :
    (respWF (IndexApi.handle_mcp_request reqInit42 env0I) ∧
     respWF (McpApi.handle_mcp_request reqInit42 env0M)) ∧
    IndexApi.handle_mcp_request reqWavNoArgs env0I =
      IndexApi.errResp (Json.int 3) (-32603)
        "Internal error: wav_to_music_score() missing 1 required positional argument: \x27wav_path\x27" ∧
    errCode (IndexApi.handle_mcp_request reqBadMethod env0I) = some (-32601) ∧
    errCode (McpApi.handle_mcp_request reqBadMethod env0M) = some (-32601) ∧
    errCode (McpApi.handle_mcp_request reqWavNoArgs env0M) = some (-32602) ∧
    errCode (IndexApi.handle_mcp_request reqWavNoArgs env0I) = some (-32603) :=
  ⟨claim_C1_dispatcher_contract.1 reqInit42 env0I env0M,
   (claim_C1_dispatcher_contract.2.1 reqWavNoArgs env0I
     "wav_to_music_score() missing 1 required positional argument: \x27wav_path\x27" rfl).trans rfl,
   claim_C1_dispatcher_contract.2.2.2.2.1 reqBadMethod env0I "tools/unsupported" rfl
     (by decide),
   claim_C1_dispatcher_contract.2.2.2.2.2.1 reqBadMethod env0M 9 "tools/unsupported" []
     ⟨rfl, rfl, Or.inr ⟨"2.0", rfl⟩, Or.inl rfl⟩ (by decide),
   claim_C1_dispatcher_contract.2.2.2.2.2.2.1 reqWavNoArgs env0M 3
     [("name", Json.str "wav_to_music_score"), ("arguments", Json.obj [])] []
     ⟨rfl, rfl, Or.inr ⟨"2.0", rfl⟩, Or.inl rfl⟩ rfl rfl rfl,
   claim_C1_dispatcher_contract.2.2.2.2.2.2.2 reqWavNoArgs env0I
     [("name", Json.str "wav_to_music_score"), ("arguments", Json.obj [])]
     rfl rfl rfl rfl⟩
